import Mathlib

/-!
# Verification of the `tsc` crate (calibrated TSC-based time source)

Shallow embedding of `src/lib.rs`: the error enum, the calibration handle
`TSC`, the x86-64 and aarch64 frequency resolvers `cpu_freq`, the
constructor `TSC::new`, and the tick-to-time conversions `now_ns` /
`now_f64`.  Rust `u64` values are modelled as `Nat` with explicit
`% 2^64` wherever the Rust arithmetic can wrap; the ambient CPU state
(cpuid leaves, the aarch64 `cntfrq_el0` register, the raw counter read)
is passed explicitly as input.
-/

namespace Tsc

/-- `2^64`, the modulus of Rust `u64` arithmetic. -/
def U64_MOD : Nat := 18446744073709551616

/-- `u64::MAX = 2^64 - 1`. -/
def U64_MAX : Nat := 18446744073709551615

/-- The error enum of `src/lib.rs` (lines 1-7). -/
inductive Error where
  | TscNotSupported
  | InvariantTscNotSupported
  | CpuidLeafTscFailed
  | CpuidLeafFreqFailed
deriving DecidableEq, Repr

/-- The ambient CPU identification state read by the x86-64 `cpu_freq`
path: the registers returned by `__cpuid` for the leaves the code
queries.  Each field models a `u32` register value. -/
structure CpuidState where
  leaf1_edx : Nat
  leaf80000007_edx : Nat
  leaf15_eax : Nat
  leaf15_ebx : Nat
  leaf15_ecx : Nat
  leaf16_eax : Nat
deriving DecidableEq, Repr

/-- The calibration handle `struct TSC { freq: u64 }` (lines 16-19). -/
structure TSC where
  freq : Nat
deriving DecidableEq, Repr

/-- `TSC::cpu_freq` for `target_arch = "x86_64"` (lines 27-54).
The `u32` products are widened to `u64` before multiplying, so the
multiplications are `u64` multiplications: modelled with `% U64_MOD`. -/
def cpu_freq_x86 (s : CpuidState) : Except Error Nat :=
  if s.leaf1_edx &&& (1 <<< 4) = 0 then
    .error .TscNotSupported
  else if s.leaf80000007_edx &&& (1 <<< 8) = 0 then
    .error .InvariantTscNotSupported
  else if s.leaf15_ebx = 0 ∨ s.leaf15_eax = 0 then
    .error .CpuidLeafTscFailed
  else if s.leaf15_ecx ≠ 0 then
    .ok (s.leaf15_ecx * s.leaf15_ebx % U64_MOD / s.leaf15_eax)
  else if s.leaf16_eax = 0 then
    .error .CpuidLeafFreqFailed
  else
    .ok (s.leaf16_eax * 1000000 % U64_MOD)

/-- `TSC::cpu_freq` for `target_arch = "aarch64"` (lines 56-64): read
the `cntfrq_el0` system register and return it, unconditionally `Ok`. -/
def cpu_freq_aarch64 (cntfrq_el0 : Nat) : Except Error Nat :=
  .ok cntfrq_el0

/-- `TSC::new` (lines 22-25) on the x86-64 path: propagate the error of
`cpu_freq` with `?`, otherwise store the resolved frequency. -/
def tsc_new_x86 (s : CpuidState) : Except Error TSC :=
  match cpu_freq_x86 s with
  | .ok f => .ok ⟨f⟩
  | .error e => .error e

/-- `TSC::new` (lines 22-25) on the aarch64 path. -/
def tsc_new_aarch64 (cntfrq_el0 : Nat) : Except Error TSC :=
  match cpu_freq_aarch64 cntfrq_el0 with
  | .ok f => .ok ⟨f⟩
  | .error e => .error e

/-- The conversion arithmetic of `TSC::now_ns` (lines 95-100) applied to
a raw counter value `tsc` (in the code, the value returned by
`read_tsc()`).  Both multiplications and the addition are `u64`
operations, hence the `% U64_MOD`; `tsc / freq` and `tsc % freq` and the
final `/ freq` cannot wrap. -/
def TSC.now_ns (self : TSC) (tsc : Nat) : Nat :=
  let secs := tsc / self.freq
  let rem := tsc % self.freq
  (secs * 1000000000 % U64_MOD + rem * 1000000000 % U64_MOD / self.freq) % U64_MOD

/-- `TSC::now_f64` (lines 91-93) applied to a raw counter value,
modelled over `ℚ` in place of IEEE `f64`.  For the inputs the claims
evaluate it at (`tsc = 0` with a nonzero frequency) the `f64` division
is exact (`0.0 / x = 0.0` for finite nonzero `x`), so the rational model
agrees with the floating-point computation there. -/
def TSC.now_f64 (self : TSC) (tsc : Nat) : ℚ :=
  (tsc : ℚ) / (self.freq : ℚ)

/-- The computation of `now_ns` stays inside `u64` (neither of the two
multiplications nor the addition wraps; in a debug build, no overflow
panic). -/
def now_ns_nowrap (freq tsc : Nat) : Prop :=
  tsc / freq * 1000000000 < U64_MOD ∧
  tsc % freq * 1000000000 < U64_MOD ∧
  tsc / freq * 1000000000 + tsc % freq * 1000000000 / freq < U64_MOD

instance (freq tsc : Nat) : Decidable (now_ns_nowrap freq tsc) := by
  unfold now_ns_nowrap
  infer_instance

/-- Splitting a division: `t / f * N + (t % f) * N / f = t * N / f`. -/
lemma split_div (f t N : Nat) (hf : 0 < f) :
    t / f * N + t % f * N / f = t * N / f := by
  conv_rhs => rw [← Nat.div_add_mod t f]
  rw [Nat.add_mul, Nat.mul_assoc, Nat.mul_add_div hf]

/-- Under `now_ns_nowrap`, `now_ns` computes the exact truncated value
`tsc * 10^9 / freq`. -/
lemma now_ns_eq_exact (f t : Nat) (hf : 0 < f) (hw : now_ns_nowrap f t) :
    (TSC.mk f).now_ns t = t * 1000000000 / f := by
  obtain ⟨h1, h2, h3⟩ := hw
  rw [← split_div f t 1000000000 hf]
  simp only [TSC.now_ns, Nat.mod_eq_of_lt h1, Nat.mod_eq_of_lt h2, Nat.mod_eq_of_lt h3]

/-- C3: for every `frequency_hz > 0` and every raw tick value, whenever
the arithmetic does not overflow 64 bits, `now_ns` computes
`seconds * 10^9 + remainder_ticks * 10^9 / freq` with
`seconds = raw / freq` and `remainder_ticks = raw % freq`, and this
equals the exact value `raw * 10^9 / freq` truncated toward zero. -/
theorem now_ns_split_exact (f t : Nat) (hf : 0 < f) (hw : now_ns_nowrap f t) :
    (TSC.mk f).now_ns t = t / f * 1000000000 + t % f * 1000000000 / f ∧
    (TSC.mk f).now_ns t = t * 1000000000 / f := by
  have he := now_ns_eq_exact f t hf hw
  exact ⟨he.trans (split_div f t 1000000000 hf).symm, he⟩

/-- Witness for C3 at `freq = 3·10^9`, `tsc = 4.5·10^9`. -/
theorem now_ns_split_exact_witness :
    (TSC.mk 3000000000).now_ns 4500000000 =
      4500000000 / 3000000000 * 1000000000 +
        4500000000 % 3000000000 * 1000000000 / 3000000000 ∧
    (TSC.mk 3000000000).now_ns 4500000000 =
      4500000000 * 1000000000 / 3000000000 :=
  now_ns_split_exact 3000000000 4500000000 (by decide) (by decide)

/-- C4: converting `frequency_hz` ticks yields exactly one second in
nanoseconds, for any positive frequency; in particular at
`frequency_hz = 3·10^9`, `3·10^9` ticks give `10^9` ns and `1.5·10^9`
ticks give `5·10^8` ns. -/
theorem now_ns_one_second (f : Nat) (hf : 0 < f) :
    (TSC.mk f).now_ns f = 1000000000 ∧
    (TSC.mk 3000000000).now_ns 3000000000 = 1000000000 ∧
    (TSC.mk 3000000000).now_ns 1500000000 = 500000000 := by
  refine ⟨?_, by decide, by decide⟩
  simp only [TSC.now_ns, Nat.div_self hf, Nat.mod_self, Nat.one_mul, Nat.zero_mul,
    Nat.zero_mod, Nat.zero_div, Nat.add_zero]
  decide

/-- Witness for C4 at `freq = 3·10^9`. -/
theorem now_ns_one_second_witness :
    (TSC.mk 3000000000).now_ns 3000000000 = 1000000000 ∧
    (TSC.mk 3000000000).now_ns 3000000000 = 1000000000 ∧
    (TSC.mk 3000000000).now_ns 1500000000 = 500000000 :=
  now_ns_one_second 3000000000 (by decide)

/-- C7: the aarch64 `cpu_freq` never returns an error: for every value
the `cntfrq_el0` register holds (including zero) it returns `Ok` with
exactly that value. -/
theorem cpu_freq_aarch64_never_fails (cntfrq_el0 : Nat) :
    cpu_freq_aarch64 cntfrq_el0 = Except.ok cntfrq_el0 :=
  rfl

/-- C8: with any positive frequency, converting a raw tick value of `0`
yields `0` nanoseconds, and `now_f64` of `0` is exactly `0`. -/
theorem now_ns_zero (f : Nat) (_hf : 0 < f) :
    (TSC.mk f).now_ns 0 = 0 ∧ (TSC.mk f).now_f64 0 = 0 := by
  constructor
  · simp [TSC.now_ns]
  · simp [TSC.now_f64]

/-- Witness for C8 at `freq = 3·10^9`. -/
theorem now_ns_zero_witness :
    (TSC.mk 3000000000).now_ns 0 = 0 ∧ (TSC.mk 3000000000).now_f64 0 = 0 :=
  now_ns_zero 3000000000 (by decide)

/-- C9: the frequency resolver is deterministic: on a fixed ambient CPU
state (the same cpuid responses, resp. the same register value), two
reads of its result are identical, on both architecture paths. -/
theorem cpu_freq_deterministic (s : CpuidState) (reg : Nat)
    (r₁ r₂ : Except Error Nat) :
    (cpu_freq_x86 s = r₁ → cpu_freq_x86 s = r₂ → r₁ = r₂) ∧
    (cpu_freq_aarch64 reg = r₁ → cpu_freq_aarch64 reg = r₂ → r₁ = r₂) :=
  ⟨fun h₁ h₂ => h₁ ▸ h₂, fun h₁ h₂ => h₁ ▸ h₂⟩

/-- Witness for C9 at a concrete cpuid state and register value. -/
theorem cpu_freq_deterministic_witness :
    Except.ok 24000000 = (Except.ok 24000000 : Except Error Nat) :=
  (cpu_freq_deterministic ⟨16, 256, 2, 2, 24000000, 0⟩ 24000000
      (Except.ok 24000000) (Except.ok 24000000)).1 rfl rfl

/-- C10: for a positive frequency, the conversion is monotone
non-decreasing on tick values whose conversion stays inside 64 bits. -/
theorem now_ns_monotone (f t₁ t₂ : Nat) (hf : 0 < f) (h12 : t₁ ≤ t₂)
    (hw₁ : now_ns_nowrap f t₁) (hw₂ : now_ns_nowrap f t₂) :
    (TSC.mk f).now_ns t₁ ≤ (TSC.mk f).now_ns t₂ := by
  rw [now_ns_eq_exact f t₁ hf hw₁, now_ns_eq_exact f t₂ hf hw₂]
  exact Nat.div_le_div_right (Nat.mul_le_mul_right _ h12)

/-- Witness for C10 at `freq = 10^9`, `t₁ = 5·10^9`, `t₂ = 7·10^9`. -/
theorem now_ns_monotone_witness :
    (TSC.mk 1000000000).now_ns 5000000000 ≤
      (TSC.mk 1000000000).now_ns 7000000000 :=
  now_ns_monotone 1000000000 5000000000 7000000000 (by decide) (by decide)
    (by decide) (by decide)

/-- C1 counterexample: at `frequency_hz = 10^6` (inside the claimed
range `[10^6, 10^10]`) converting `u64::MAX` ticks overflows 64-bit
arithmetic: `secs * 10^9` wraps, and the computed result differs from
the exact truncated value. -/
theorem now_ns_max_overflow_cex :
    1000000 ≤ 1000000 ∧ 1000000 ≤ 10000000000 ∧
    ¬ now_ns_nowrap 1000000 U64_MAX ∧
    (TSC.mk 1000000).now_ns U64_MAX ≠ U64_MAX * 1000000000 / 1000000 := by
  refine ⟨Nat.le_refl _, by decide, ?_, by decide⟩
  intro h
  exact absurd h.1 (by decide)

/-- C1 amended: converting `u64::MAX` ticks neither panics nor wraps for
any `frequency_hz` in `[10^9, 10^10]` (the claimed lower bound `10^6`
admits overflow of `secs * 10^9`); there the result is the exact
truncated value. -/
theorem now_ns_max_nowrap (f : Nat) (h1 : 1000000000 ≤ f)
    (h2 : f ≤ 10000000000) :
    now_ns_nowrap f U64_MAX ∧
    (TSC.mk f).now_ns U64_MAX = U64_MAX * 1000000000 / f := by
  have hf : 0 < f := lt_of_lt_of_le (by decide) h1
  have hsecs : U64_MAX / f * 1000000000 < U64_MOD := by
    have hd : U64_MAX / f ≤ U64_MAX / 1000000000 :=
      Nat.div_le_div_left h1 (by decide)
    have : U64_MAX / f ≤ 18446744073 := le_trans hd (by decide)
    calc U64_MAX / f * 1000000000 ≤ 18446744073 * 1000000000 :=
          Nat.mul_le_mul_right _ this
      _ < U64_MOD := by decide
  have hrem : U64_MAX % f * 1000000000 < U64_MOD := by
    have hr : U64_MAX % f < f := Nat.mod_lt _ hf
    calc U64_MAX % f * 1000000000 < f * 1000000000 :=
          Nat.mul_lt_mul_of_lt_of_le hr (Nat.le_refl _) (by decide)
      _ ≤ 10000000000 * 1000000000 := Nat.mul_le_mul_right _ h2
      _ < U64_MOD := by decide
  have hsum : U64_MAX / f * 1000000000 + U64_MAX % f * 1000000000 / f
      < U64_MOD := by
    rw [split_div f U64_MAX 1000000000 hf]
    have : U64_MAX * 1000000000 / f ≤ U64_MAX * 1000000000 / 1000000000 :=
      Nat.div_le_div_left h1 (by decide)
    calc U64_MAX * 1000000000 / f ≤ U64_MAX * 1000000000 / 1000000000 := this
      _ = U64_MAX := Nat.mul_div_cancel _ (by decide)
      _ < U64_MOD := by decide
  have hw : now_ns_nowrap f U64_MAX := ⟨hsecs, hrem, hsum⟩
  exact ⟨hw, now_ns_eq_exact f U64_MAX hf hw⟩

/-- Witness for the amended C1 at `frequency_hz = 10^9`. -/
theorem now_ns_max_nowrap_witness :
    now_ns_nowrap 1000000000 U64_MAX ∧
    (TSC.mk 1000000000).now_ns U64_MAX = U64_MAX * 1000000000 / 1000000000 :=
  now_ns_max_nowrap 1000000000 (Nat.le_refl _) (by decide)

/-- A cpuid state on which the crystal path computes frequency zero:
the TSC and invariant-TSC bits are set, leaf `0x15` reports
denominator `2`, numerator `1`, crystal frequency `1` Hz, so
`freq = (1 * 1) / 2 = 0` and construction succeeds with `freq = 0`. -/
def zeroFreqState : CpuidState := ⟨16, 256, 2, 1, 1, 0⟩

/-- C2 counterexample: `TSC::new` can return `Ok` with a stored
frequency of `0`; a zero resolved frequency is not rejected. -/
theorem tsc_new_zero_freq_cex :
    cpu_freq_x86 zeroFreqState = Except.ok 0 ∧
    tsc_new_x86 zeroFreqState = Except.ok ⟨0⟩ ∧
    ¬ 0 < (TSC.mk 0).freq := by
  refine ⟨rfl, rfl, by decide⟩

/-- C2 amended: `TSC::new` returns `Ok` exactly when `cpu_freq` does,
storing the resolved frequency unchanged — including a resolved
frequency of zero, which is not checked for (on either path). -/
theorem tsc_new_stores_freq (s : CpuidState) (f : Nat) (reg : Nat) :
    (cpu_freq_x86 s = Except.ok f → tsc_new_x86 s = Except.ok ⟨f⟩) ∧
    (∀ e, cpu_freq_x86 s = Except.error e → tsc_new_x86 s = Except.error e) ∧
    tsc_new_aarch64 reg = Except.ok ⟨reg⟩ := by
  refine ⟨fun h => ?_, fun e h => ?_, rfl⟩
  · unfold tsc_new_x86
    rw [h]
  · unfold tsc_new_x86
    rw [h]

/-- Witness for the amended C2 at a concrete cpuid state resolving to
`24000000 * 188 / 2 = 2256000000` Hz. -/
theorem tsc_new_stores_freq_witness :
    tsc_new_x86 ⟨16, 256, 2, 188, 24000000, 0⟩ = Except.ok ⟨2256000000⟩ :=
  (tsc_new_stores_freq ⟨16, 256, 2, 188, 24000000, 0⟩ 2256000000 0).1 rfl

/-- C5: on the x86-64 path the resolver's outcomes are characterized
exactly, in the code's order: `TscNotSupported` iff bit 4 of leaf 1 EDX
is clear; else `InvariantTscNotSupported` iff bit 8 of leaf `0x80000007`
EDX is clear; else `CpuidLeafTscFailed` iff leaf `0x15` numerator (EBX)
or denominator (EAX) is zero; else `CpuidLeafFreqFailed` iff the crystal
frequency (ECX) is zero and leaf `0x16` EAX is also zero; otherwise it
succeeds. -/
theorem cpu_freq_x86_error_conditions (s : CpuidState) :
    (cpu_freq_x86 s = Except.error .TscNotSupported ↔
      s.leaf1_edx &&& (1 <<< 4) = 0) ∧
    (cpu_freq_x86 s = Except.error .InvariantTscNotSupported ↔
      s.leaf1_edx &&& (1 <<< 4) ≠ 0 ∧ s.leaf80000007_edx &&& (1 <<< 8) = 0) ∧
    (cpu_freq_x86 s = Except.error .CpuidLeafTscFailed ↔
      s.leaf1_edx &&& (1 <<< 4) ≠ 0 ∧ s.leaf80000007_edx &&& (1 <<< 8) ≠ 0 ∧
      (s.leaf15_ebx = 0 ∨ s.leaf15_eax = 0)) ∧
    (cpu_freq_x86 s = Except.error .CpuidLeafFreqFailed ↔
      s.leaf1_edx &&& (1 <<< 4) ≠ 0 ∧ s.leaf80000007_edx &&& (1 <<< 8) ≠ 0 ∧
      ¬(s.leaf15_ebx = 0 ∨ s.leaf15_eax = 0) ∧ s.leaf15_ecx = 0 ∧
      s.leaf16_eax = 0) ∧
    ((∃ f, cpu_freq_x86 s = Except.ok f) ↔
      s.leaf1_edx &&& (1 <<< 4) ≠ 0 ∧ s.leaf80000007_edx &&& (1 <<< 8) ≠ 0 ∧
      ¬(s.leaf15_ebx = 0 ∨ s.leaf15_eax = 0) ∧
      (s.leaf15_ecx ≠ 0 ∨ s.leaf16_eax ≠ 0)) := by
  unfold cpu_freq_x86
  split_ifs with h1 h2 h3 h4 h5 <;> simp_all

/-- C6: on the x86-64 path, with 32-bit register values and the gates
passed, a nonzero crystal frequency yields
`frequency_hz = crystal * numerator / denominator` with the 64-bit
product `crystal * numerator` not overflowing; a zero crystal frequency
with a nonzero leaf-`0x16` base frequency (MHz) yields
`frequency_hz = base_mhz * 10^6`. -/
theorem cpu_freq_x86_frequency (s : CpuidState)
    (hecx : s.leaf15_ecx < 4294967296) (hebx : s.leaf15_ebx < 4294967296)
    (h16 : s.leaf16_eax < 4294967296)
    (hb1 : s.leaf1_edx &&& (1 <<< 4) ≠ 0)
    (hb2 : s.leaf80000007_edx &&& (1 <<< 8) ≠ 0)
    (hnum : s.leaf15_ebx ≠ 0) (hden : s.leaf15_eax ≠ 0) :
    (s.leaf15_ecx ≠ 0 →
      s.leaf15_ecx * s.leaf15_ebx < U64_MOD ∧
      cpu_freq_x86 s = Except.ok (s.leaf15_ecx * s.leaf15_ebx / s.leaf15_eax)) ∧
    (s.leaf15_ecx = 0 → s.leaf16_eax ≠ 0 →
      cpu_freq_x86 s = Except.ok (s.leaf16_eax * 1000000)) := by
  have hb1' : s.leaf1_edx &&& 16 ≠ 0 := by simpa using hb1
  have hb2' : s.leaf80000007_edx &&& 256 ≠ 0 := by simpa using hb2
  constructor
  · intro hc
    have hmul : s.leaf15_ecx * s.leaf15_ebx < U64_MOD := by
      calc s.leaf15_ecx * s.leaf15_ebx
          < 4294967296 * 4294967296 :=
            Nat.mul_lt_mul_of_lt_of_le hecx (Nat.le_of_lt hebx) (by decide)
        _ = U64_MOD := by decide
    refine ⟨hmul, ?_⟩
    simp [cpu_freq_x86, hb1', hb2', hnum, hden, hc, Nat.mod_eq_of_lt hmul]
  · intro hc h16nz
    have hmul : s.leaf16_eax * 1000000 < U64_MOD := by
      calc s.leaf16_eax * 1000000
          < 4294967296 * 1000000 :=
            Nat.mul_lt_mul_of_lt_of_le h16 (Nat.le_refl _) (by decide)
        _ < U64_MOD := by decide
    simp [cpu_freq_x86, hb1', hb2', hnum, hden, hc, h16nz, Nat.mod_eq_of_lt hmul]

/-- Witness for C6 at a concrete cpuid state (crystal path:
`24000000 * 188 / 2`; the fallback implication is vacuous there). -/
theorem cpu_freq_x86_frequency_witness :
    (24000000 ≠ 0 →
      24000000 * 188 < U64_MOD ∧
      cpu_freq_x86 ⟨16, 256, 2, 188, 24000000, 0⟩ =
        Except.ok (24000000 * 188 / 2)) ∧
    (24000000 = 0 → (0 : Nat) ≠ 0 →
      cpu_freq_x86 ⟨16, 256, 2, 188, 24000000, 0⟩ =
        Except.ok (0 * 1000000)) :=
  cpu_freq_x86_frequency ⟨16, 256, 2, 188, 24000000, 0⟩ (by decide) (by decide)
    (by decide) (by decide) (by decide) (by decide) (by decide)

end Tsc
